import Mathlib

/-!
Shallow embedding of the benchmark comparison and regression-classification
engine of the hexaglue-benchmarks repository: the decision logic of
scripts/generate-report.py (parse_results, get_diff, get_status,
format_benchmark_row, the time-budget loop and the regression-threshold loop
of main) and of scripts/parse-results.py (the unguarded per-benchmark diff
computation). Infinities and NaN matter to this logic, so scores and deltas
are modelled by a dedicated float type; the finite values are kept as exact
rationals, which agrees with IEEE floats on every order comparison the
scripts perform.
-/

/-- Model of a Python float as the scripts use it: a finite value kept as a
rational, positive infinity, negative infinity, or NaN. -/
inductive PyFloat where
  | finite (q : ℚ)
  | pinf
  | ninf
  | nan
deriving DecidableEq

/-- IEEE-style non-strict comparison of two floats: every comparison
involving NaN is false. -/
def ple : PyFloat → PyFloat → Bool
  | .nan, _ => false
  | _, .nan => false
  | .ninf, _ => true
  | _, .ninf => false
  | _, .pinf => true
  | .pinf, _ => false
  | .finite a, .finite b => decide (a ≤ b)

/-- IEEE-style strict comparison of two floats: every comparison involving
NaN is false. -/
def plt : PyFloat → PyFloat → Bool
  | .nan, _ => false
  | _, .nan => false
  | .ninf, .ninf => false
  | .ninf, _ => true
  | _, .ninf => false
  | .pinf, .pinf => false
  | _, .pinf => true
  | .pinf, _ => false
  | .finite a, .finite b => decide (a < b)

/-- IEEE-style strict greater-than. -/
def pygt (a b : PyFloat) : Bool := plt b a

/-- Python float equality against the integer literal 0: true exactly for a
finite zero; NaN and the infinities compare unequal to 0. -/
def pyEqZero : PyFloat → Bool
  | .finite q => decide (q = 0)
  | _ => false

/-- Python truthiness of a float: a zero value is falsy; NaN and the
infinities are truthy. -/
def pyTruthy : PyFloat → Bool
  | .finite q => decide (q ≠ 0)
  | _ => true

/-- Float addition. -/
def pyadd : PyFloat → PyFloat → PyFloat
  | .nan, _ => .nan
  | _, .nan => .nan
  | .finite a, .finite b => .finite (a + b)
  | .pinf, .ninf => .nan
  | .ninf, .pinf => .nan
  | .pinf, _ => .pinf
  | .ninf, _ => .ninf
  | _, .pinf => .pinf
  | _, .ninf => .ninf

/-- Float subtraction. -/
def pysub : PyFloat → PyFloat → PyFloat
  | .nan, _ => .nan
  | _, .nan => .nan
  | .finite a, .finite b => .finite (a - b)
  | .pinf, .pinf => .nan
  | .pinf, _ => .pinf
  | .ninf, .ninf => .nan
  | .ninf, _ => .ninf
  | .finite _, .pinf => .ninf
  | .finite _, .ninf => .pinf

/-- Float multiplication. -/
def pymul : PyFloat → PyFloat → PyFloat
  | .nan, _ => .nan
  | _, .nan => .nan
  | .finite a, .finite b => .finite (a * b)
  | .pinf, .pinf => .pinf
  | .pinf, .ninf => .ninf
  | .ninf, .pinf => .ninf
  | .ninf, .ninf => .pinf
  | .pinf, .finite b => if 0 < b then .pinf else if b < 0 then .ninf else .nan
  | .finite a, .pinf => if 0 < a then .pinf else if a < 0 then .ninf else .nan
  | .ninf, .finite b => if 0 < b then .ninf else if b < 0 then .pinf else .nan
  | .finite a, .ninf => if 0 < a then .ninf else if a < 0 then .pinf else .nan

/-- Python float division. Dividing by a zero denominator raises
ZeroDivisionError whatever the numerator is, modelled as none; every other
division yields a value. -/
def pydiv : PyFloat → PyFloat → Option PyFloat
  | a, .finite q =>
    if q = 0 then none
    else
      match a with
      | .nan => some .nan
      | .finite p => some (.finite (p / q))
      | .pinf => some (if 0 < q then .pinf else .ninf)
      | .ninf => some (if 0 < q then .ninf else .pinf)
  | .nan, _ => some .nan
  | _, .nan => some .nan
  | .finite _, .pinf => some (.finite 0)
  | .finite _, .ninf => some (.finite 0)
  | .pinf, _ => some .nan
  | .ninf, _ => some .nan

/-- Python max over two floats: the second argument replaces the first only
when strictly greater, so max of NaN-then-x is NaN while max of x-then-NaN
is x. -/
def pymax (a b : PyFloat) : PyFloat := if plt a b then b else a

/-- Python x or 0 on a float: a falsy value, that is a zero, is replaced by
the literal 0; NaN is truthy and passes through unchanged. -/
def pyOrZero (x : PyFloat) : PyFloat := if pyTruthy x then x else .finite 0

/-- get_diff of generate-report.py: the percentage difference between the v2
baseline score and the v3 candidate score, computed as v3 minus v2, over v2,
times 100; a baseline equal to 0 yields positive infinity. The getD default
is unreachable because the zero test guards the division. -/
def get_diff (v2_score v3_score : PyFloat) : PyFloat :=
  if pyEqZero v2_score then .pinf
  else pymul ((pydiv (pysub v3_score v2_score) v2_score).getD .nan) (.finite 100)

/-- The status labels returned by get_status of generate-report.py. -/
inductive Status where
  | IMPROVED
  | OK
  | WARN
  | REGRESSION
deriving DecidableEq

/-- get_status of generate-report.py: ordered threshold bands on the diff.
The threshold parameter defaults to 20 at the call sites and is kept
explicit here. -/
def get_status (diff threshold : PyFloat) : Status :=
  if ple diff (.finite (-5)) then .IMPROVED
  else if ple diff threshold then .OK
  else if ple diff (pyadd threshold (.finite 10)) then .WARN
  else .REGRESSION

/-- One stored benchmark measurement: the score and error entries that
parse_results keeps from the primaryMetric object of a record. -/
structure Measurement where
  score : PyFloat
  error : PyFloat
deriving DecidableEq

/-- A MetricSet: the Python dict from benchmark name to measurement, as an
insertion-ordered association list whose keys are unique. -/
abbrev MetricSet := List (String × Measurement)

/-- Python dict lookup and membership: the value bound to the key, if any. -/
def dictFind? : MetricSet → String → Option Measurement
  | [], _ => none
  | p :: rest, k => if p.1 == k then some p.2 else dictFind? rest k

/-- Python dict assignment of v to key k: when the key is already bound its
value is replaced in place, otherwise the new binding is appended at the
end, exactly the insertion-order semantics of a Python dict. -/
def dictInsert : MetricSet → String → Measurement → MetricSet
  | [], k, v => [(k, v)]
  | p :: rest, k, v => if p.1 == k then (k, v) :: rest else p :: dictInsert rest k v

/-- The primaryMetric object of one JMH record: its score and scoreError. -/
structure PrimaryMetric where
  score : PyFloat
  scoreError : PyFloat
deriving DecidableEq

/-- One record of a JMH results file: the fully qualified dotted benchmark
identifier and its primary metric. -/
structure BenchEntry where
  benchmark : String
  primaryMetric : PrimaryMetric
deriving DecidableEq

/-- Helper for lastSeg: walks the characters accumulating the current
segment and resetting it at each dot. -/
def lastSegAux : List Char → List Char → List Char
  | [], acc => acc.reverse
  | c :: rest, acc => if c = '.' then lastSegAux rest [] else lastSegAux rest (c :: acc)

/-- The last dot-separated segment of a benchmark identifier, as the scripts
compute it by splitting on the dot and taking the last element: the
characters after the final dot, the whole string when there is no dot, and
empty for a trailing dot. -/
def lastSeg (s : String) : String := ⟨lastSegAux s.data []⟩

/-- The loop body of parse_results: store the measurement of one record
under the last segment of its benchmark identifier. -/
def insertEntry (d : MetricSet) (e : BenchEntry) : MetricSet :=
  dictInsert d (lastSeg e.benchmark) ⟨e.primaryMetric.score, e.primaryMetric.scoreError⟩

/-- parse_results, identical in both scripts: fold the records of the file
into a dict keyed by the last segment of each benchmark identifier; a
repeated key silently overwrites the earlier measurement. -/
def parse_results (entries : List BenchEntry) : MetricSet :=
  entries.foldl insertEntry []

/-- The presence cases distinguished by the branch structure of
format_benchmark_row. -/
inductive PresenceCase where
  | BOTH
  | CANDIDATE_ONLY
  | BASELINE_ONLY
  | NEITHER
deriving DecidableEq

/-- The presence test sequence of format_benchmark_row: membership in both
dicts, else candidate only, else baseline only, else neither. -/
def resolve (bench : String) (v2_results v3_results : MetricSet) : PresenceCase :=
  match dictFind? v2_results bench, dictFind? v3_results bench with
  | some _, some _ => .BOTH
  | none, some _ => .CANDIDATE_ONLY
  | some _, none => .BASELINE_ONLY
  | none, none => .NEITHER

/-- The status column of a comparison row. The placeholder row for a
benchmark found in neither set carries a dash in the rendered table; that
placeholder is the UNKNOWN case. -/
inductive RowStatus where
  | classified (s : Status)
  | NEW
  | REMOVED
  | UNKNOWN
deriving DecidableEq

/-- The computed content of one row of format_benchmark_row; the markdown
string assembly around these values is presentation only. -/
structure Row where
  bench : String
  v2score : Option PyFloat
  v3score : Option PyFloat
  diff : Option PyFloat
  status : RowStatus
deriving DecidableEq

/-- format_benchmark_row of generate-report.py: compare when the benchmark
is in both sets, else mark NEW, REMOVED, or the placeholder row. -/
def format_benchmark_row (bench : String) (v2_results v3_results : MetricSet)
    (threshold : PyFloat) : Row :=
  match dictFind? v2_results bench, dictFind? v3_results bench with
  | some m2, some m3 =>
    let diff := get_diff m2.score m3.score
    ⟨bench, some m2.score, some m3.score, some diff, .classified (get_status diff threshold)⟩
  | none, some m3 => ⟨bench, none, some m3.score, none, .NEW⟩
  | some m2, none => ⟨bench, some m2.score, none, none, .REMOVED⟩
  | none, none => ⟨bench, none, none, none, .UNKNOWN⟩

/-- The chained get with defaults of generate-report.py main: the score of
the named benchmark when present, else the literal 0. -/
def scoreD (d : MetricSet) (k : String) : PyFloat :=
  match dictFind? d k with
  | some m => m.score
  | none => .finite 0

/-- One phase percentage of the time-budget table: val over total times 100
when total is strictly positive, else the literal 0. A none would be a
ZeroDivisionError; the positivity guard keeps the division safe. -/
def pct (v total : PyFloat) : Option PyFloat :=
  if pygt total (.finite 0) then (pydiv v total).map (fun r => pymul r (.finite 100))
  else some (.finite 0)

/-- One row of the Time Budget Breakdown table. -/
structure BudgetRow where
  parse_val : PyFloat
  graph_val : PyFloat
  classify_val : PyFloat
  parse_pct : Option PyFloat
  graph_pct : Option PyFloat
  classify_pct : Option PyFloat
  total : PyFloat
deriving DecidableEq

/-- The budget loop body of generate-report.py main for one corpus size: a
row is produced only when the end-to-end analyze measurement exists in the
candidate set with a strictly positive score; otherwise the iteration emits
nothing for that corpus. Phase scores missing from the set enter as 0. -/
def budget_row (v3_results : MetricSet) (size : String) : Option BudgetRow :=
  match dictFind? v3_results ("analyze" ++ size) with
  | none => none
  | some m =>
    if pygt m.score (.finite 0) then
      let total := m.score
      let parse_val := scoreD v3_results ("parse" ++ size)
      let graph_val := scoreD v3_results ("buildGraph" ++ size)
      let classify_val := scoreD v3_results ("classify" ++ size)
      some ⟨parse_val, graph_val, classify_val,
        pct parse_val total, pct graph_val total, pct classify_val total, total⟩
    else none

/-- The verdicts of the Regression Thresholds table. -/
inductive Verdict where
  | PASS
  | FAIL
  | BASELINE
deriving DecidableEq

/-- The regression-threshold loop body of generate-report.py main for one
corpus. parseDiff is the diffs entry of the parse benchmark and classifyDiff
the diffs entry of the classify benchmark, where none models the stored
None of a benchmark missing from either set. The verdict is BASELINE when
the parse delta is absent; otherwise the classify delta is replaced by the
literal 0 when absent or zero, and the Python max of the two deltas is
compared inclusively against the threshold. -/
def regression_check (parseDiff classifyDiff : Option PyFloat)
    (threshold : PyFloat) : Verdict :=
  match parseDiff with
  | none => .BASELINE
  | some parse_diff =>
    let classify_diff :=
      match classifyDiff with
      | none => .finite 0
      | some x => pyOrZero x
    if ple (pymax parse_diff classify_diff) threshold then .PASS else .FAIL

/-- The diffs dict population of generate-report.py main: the delta when the
benchmark is present in both sets, otherwise the stored None. -/
def diffs_entry (v2_results v3_results : MetricSet) (bench : String) : Option PyFloat :=
  match dictFind? v2_results bench, dictFind? v3_results bench with
  | some m2, some m3 => some (get_diff m2.score m3.score)
  | _, _ => none

/-- One row of the Regression Thresholds table for a corpus size: the gate
applied to the parse and classify deltas of that corpus. The loop pairs the
sizes Small, Medium and Large with the thresholds 20, 25 and 30. -/
def gate_verdict (v2_results v3_results : MetricSet) (size : String)
    (threshold : PyFloat) : Verdict :=
  regression_check (diffs_entry v2_results v3_results ("parse" ++ size))
    (diffs_entry v2_results v3_results ("classify" ++ size)) threshold

/-- The comparison loop of parse-results.py: for each benchmark of the v2
set that is also present in v3, the diff v3 minus v2, over v2, times 100 is
computed with no zero guard; none models the uncaught ZeroDivisionError
that aborts the run. -/
def plain_text_diffs : MetricSet → MetricSet → Option (List (String × PyFloat))
  | [], _ => some []
  | p :: rest, v3 =>
    match dictFind? v3 p.1 with
    | none => plain_text_diffs rest v3
    | some m3 =>
      match pydiv (pysub m3.score p.2.score) p.2.score with
      | none => none
      | some r => (plain_text_diffs rest v3).map (fun l => (p.1, pymul r (.finite 100)) :: l)

/-- The last record of the list whose benchmark identifier has the given
last segment, if any. -/
def lastMatch (k : String) : List BenchEntry → Option BenchEntry
  | [] => none
  | e :: rest =>
    match lastMatch k rest with
    | some r => some r
    | none => if lastSeg e.benchmark == k then some e else none

/-! Helper lemmas about the float operations. -/

theorem ple_finite (a b : ℚ) : ple (.finite a) (.finite b) = decide (a ≤ b) := rfl

theorem plt_finite (a b : ℚ) : plt (.finite a) (.finite b) = decide (a < b) := rfl

theorem pyadd_finite (a b : ℚ) : pyadd (.finite a) (.finite b) = .finite (a + b) := rfl

theorem pysub_finite (a b : ℚ) : pysub (.finite a) (.finite b) = .finite (a - b) := rfl

theorem pymul_finite (a b : ℚ) : pymul (.finite a) (.finite b) = .finite (a * b) := rfl

theorem pydiv_finite (p q : ℚ) (h : q ≠ 0) :
    pydiv (.finite p) (.finite q) = some (.finite (p / q)) := by
  simp [pydiv, h]

theorem pyOrZero_finite (q : ℚ) : pyOrZero (.finite q) = .finite q := by
  by_cases h : q = 0 <;> simp [pyOrZero, pyTruthy, h]

theorem pymax_finite (a b : ℚ) : pymax (.finite a) (.finite b) = .finite (max a b) := by
  by_cases h : a < b
  · simp [pymax, plt_finite, h, max_eq_right h.le]
  · simp [pymax, plt_finite, h, max_eq_left (le_of_not_lt h)]

theorem pydiv_eq_none (a b : PyFloat) : pydiv a b = none ↔ b = .finite 0 := by
  cases b with
  | finite q =>
    by_cases h : q = 0
    · subst h; cases a <;> simp [pydiv]
    · cases a <;> simp [pydiv, h]
  | pinf => cases a <;> simp [pydiv]
  | ninf => cases a <;> simp [pydiv]
  | nan => cases a <;> simp [pydiv]

/-- Claim C5 (confirmed): for every finite delta and every finite
warnThreshold t, get_status returns exactly one of IMPROVED, OK, WARN,
REGRESSION, determined by the ordered bands delta at most minus 5, delta at
most t, delta at most t plus 10, and the remainder; the bands are mutually
exclusive and exhaustive for any finite delta. -/
theorem get_status_bands :
    ∀ (d t : ℚ),
      (get_status (.finite d) (.finite t) = .IMPROVED ↔ d ≤ -5) ∧
      (get_status (.finite d) (.finite t) = .OK ↔ -5 < d ∧ d ≤ t) ∧
      (get_status (.finite d) (.finite t) = .WARN ↔ -5 < d ∧ t < d ∧ d ≤ t + 10) ∧
      (get_status (.finite d) (.finite t) = .REGRESSION ↔ -5 < d ∧ t + 10 < d) := by
  intro d t
  simp only [get_status, ple_finite, pyadd_finite, decide_eq_true_eq]
  split_ifs with h1 h2 h3 <;>
    refine ⟨?_, ?_, ?_, ?_⟩ <;> simp_all <;> linarith

/-- Claim C6 (confirmed): get_diff computes candidate minus baseline, over
baseline, times 100 whenever the baseline is a nonzero rational, so in
particular the delta of a positive baseline against itself is 0, and a
baseline of exactly 0 yields positive infinity for every candidate, never
negative infinity. -/
theorem get_diff_spec :
    (∀ (b c : ℚ), b ≠ 0 → get_diff (.finite b) (.finite c) = .finite ((c - b) / b * 100)) ∧
    (∀ b : ℚ, 0 < b → get_diff (.finite b) (.finite b) = .finite 0) ∧
    (∀ c : PyFloat, get_diff (.finite 0) c = .pinf) := by
  have h1 : ∀ (b c : ℚ), b ≠ 0 → get_diff (.finite b) (.finite c) = .finite ((c - b) / b * 100) := by
    intro b c hb
    simp [get_diff, pyEqZero, hb, pysub_finite, pydiv_finite _ _ hb, pymul_finite]
  refine ⟨h1, ?_, fun c => rfl⟩
  intro b hb
  rw [h1 b b hb.ne']
  norm_num

/-- Witness for claim C6 at concrete inputs: a 2 to 3 change is a 50 percent
delta, a baseline compared against itself gives 0, and a zero baseline gives
positive infinity even against a candidate of negative infinity. -/
theorem get_diff_spec_witness :
    get_diff (.finite 2) (.finite 3) = .finite 50 ∧
    get_diff (.finite 2) (.finite 2) = .finite 0 ∧
    get_diff (.finite 0) .ninf = .pinf := by
  refine ⟨?_, get_diff_spec.2.1 2 (by norm_num), get_diff_spec.2.2 .ninf⟩
  rw [get_diff_spec.1 2 3 (by norm_num)]
  norm_num

/-- Claim C7 (confirmed): the delta produced by a zero baseline is positive
infinity, and feeding it to get_status yields REGRESSION for every finite
warnThreshold, because infinity fails every band comparison. -/
theorem get_status_zero_baseline_regression :
    ∀ (c : PyFloat) (t : ℚ), get_status (get_diff (.finite 0) c) (.finite t) = .REGRESSION :=
  fun _ _ => rfl

/-- Claim C10 (confirmed): a NaN delta fails every band comparison of
get_status and falls through to the final branch, so it is classified
REGRESSION for every warnThreshold. -/
theorem get_status_nan_regression :
    ∀ t : PyFloat, get_status .nan t = .REGRESSION := by
  intro t
  cases t <;> rfl

/-- Claim C4 (confirmed): the presence resolution of format_benchmark_row is
total: for every benchmark name and pair of MetricSets exactly one of BOTH,
CANDIDATE_ONLY, BASELINE_ONLY, NEITHER applies, each characterised by the
membership pair, and the NEITHER case produces the placeholder row whose
status is the UNKNOWN marker, without any failure path. -/
theorem format_benchmark_row_presence_total :
    ∀ (bench : String) (v2_results v3_results : MetricSet) (threshold : PyFloat),
      (resolve bench v2_results v3_results = .BOTH ↔
        (dictFind? v2_results bench).isSome ∧ (dictFind? v3_results bench).isSome) ∧
      (resolve bench v2_results v3_results = .CANDIDATE_ONLY ↔
        ¬ (dictFind? v2_results bench).isSome ∧ (dictFind? v3_results bench).isSome) ∧
      (resolve bench v2_results v3_results = .BASELINE_ONLY ↔
        (dictFind? v2_results bench).isSome ∧ ¬ (dictFind? v3_results bench).isSome) ∧
      (resolve bench v2_results v3_results = .NEITHER ↔
        ¬ (dictFind? v2_results bench).isSome ∧ ¬ (dictFind? v3_results bench).isSome) ∧
      ((format_benchmark_row bench v2_results v3_results threshold).status = .UNKNOWN ↔
        resolve bench v2_results v3_results = .NEITHER) := by
  intro bench v2_results v3_results threshold
  cases h2 : dictFind? v2_results bench <;> cases h3 : dictFind? v3_results bench <;>
    simp [resolve, format_benchmark_row, h2, h3]

/-- The gate body at finite deltas: the verdict is the inclusive comparison
of the rational maximum against the threshold. -/
theorem regression_check_finite (p x t : ℚ) :
    regression_check (some (.finite p)) (some (.finite x)) (.finite t) =
      if max p x ≤ t then .PASS else .FAIL := by
  simp only [regression_check, pyOrZero_finite, pymax_finite, ple_finite]
  rcases le_or_lt (max p x) t with h | h
  · simp [h]
  · simp [h, not_le.mpr h]

/-- The gate body with an absent classify delta at a finite parse delta:
the absent delta enters as the literal 0. -/
theorem regression_check_finite_none (p t : ℚ) :
    regression_check (some (.finite p)) none (.finite t) =
      if max p 0 ≤ t then .PASS else .FAIL := by
  simp only [regression_check, pymax_finite, ple_finite]
  rcases le_or_lt (max p 0) t with h | h
  · simp [h]
  · simp [h, not_le.mpr h]

/-- Claim C1 counterexample: with the parse delta absent and the classify
delta present, equal to 25 and above the threshold 20, the gate still
returns BASELINE, so the verdict is not determined by the collection of all
present designated deltas. -/
theorem regression_check_baseline_with_classify_present :
    regression_check none (some (.finite 25)) (.finite 20) = .BASELINE := rfl

/-- Claim C1 (corrected): the gate keys its presence test on the parse-role
delta alone: the verdict is BASELINE exactly when the parse delta is absent,
regardless of the classify delta; when the parse delta is present the
verdict is PASS or FAIL, an absent classify delta is substituted by the
literal 0 rather than excluded, and a NaN delta is not excluded but
propagates into the max comparison, where a NaN parse delta forces FAIL. -/
theorem regression_check_parse_keyed :
    (∀ (c : Option PyFloat) (t : PyFloat), regression_check none c t = .BASELINE) ∧
    (∀ (p : PyFloat) (c : Option PyFloat) (t : PyFloat),
      regression_check (some p) c t = .PASS ∨ regression_check (some p) c t = .FAIL) ∧
    (∀ (p t : PyFloat),
      regression_check (some p) none t = regression_check (some p) (some (.finite 0)) t) ∧
    regression_check (some .nan) (some (.finite 0)) (.finite 20) = .FAIL := by
  refine ⟨fun _ _ => rfl, ?_, fun _ _ => rfl, rfl⟩
  intro p c t
  rcases c with _ | x <;> dsimp only [regression_check] <;> split <;> simp

/-- Claim C2 counterexample: with the parse delta absent and the classify
delta present, equal to 30 and strictly above the threshold 25, the gate
returns BASELINE rather than the FAIL that the maximum of the present
deltas would demand. -/
theorem regression_check_baseline_despite_exceeding_classify :
    regression_check none (some (.finite 30)) (.finite 25) = .BASELINE := rfl

/-- Claim C2 (corrected): whenever the parse-role delta is present and
finite, the gate returns FAIL exactly when the maximum of the parse delta
and the classify delta, taken as 0 when the latter is absent, strictly
exceeds the threshold, and PASS exactly when that maximum is at most the
threshold, so a maximum exactly equal to the threshold yields PASS; when
the parse delta is absent the verdict is BASELINE even if the classify
delta alone is present. -/
theorem regression_check_max_inclusive :
    ∀ (p t : ℚ) (c : Option ℚ),
      (regression_check (some (.finite p)) (c.map .finite) (.finite t) = .FAIL ↔
        t < max p (c.getD 0)) ∧
      (regression_check (some (.finite p)) (c.map .finite) (.finite t) = .PASS ↔
        max p (c.getD 0) ≤ t) := by
  intro p t c
  rcases c with _ | x
  · simp only [Option.map_none', Option.getD_none, regression_check_finite_none]
    rcases le_or_lt (max p 0) t with h | h
    · simp [h, not_lt.mpr h]
    · simp [h, not_le.mpr h]
  · simp only [Option.map_some', Option.getD_some, regression_check_finite]
    rcases le_or_lt (max p x) t with h | h
    · simp [h, not_lt.mpr h]
    · simp [h, not_le.mpr h]

/-- Claim C3 counterexample: a candidate MetricSet whose end-to-end
analyzeSmall score is exactly 0 produces no budget entry at all for the
Small corpus, rather than a complete entry with all-zero percentages. -/
theorem budget_row_zero_total_no_entry :
    budget_row [("analyzeSmall", ⟨.finite 0, .finite 0⟩)] "Small" = none := rfl

/-- Claim C3 (corrected): when the end-to-end measurement of a corpus is
missing, or present with a score that is not strictly positive, including a
totalScore of exactly 0, the budget loop emits no entry for that corpus
instead of an all-zero one; and the phase-percentage computation never
performs a division by zero, since the positivity guard routes a
non-positive total to the literal 0. -/
theorem budget_row_skip_and_no_zero_division :
    (∀ (v3_results : MetricSet) (size : String),
      dictFind? v3_results ("analyze" ++ size) = none → budget_row v3_results size = none) ∧
    (∀ (v3_results : MetricSet) (size : String) (m : Measurement),
      dictFind? v3_results ("analyze" ++ size) = some m → pygt m.score (.finite 0) = false →
        budget_row v3_results size = none) ∧
    (∀ (v total : PyFloat), (pct v total).isSome) := by
  refine ⟨?_, ?_, ?_⟩
  · intro v3_results size h
    simp [budget_row, h]
  · intro v3_results size m h hs
    simp [budget_row, h, hs]
  · intro v total
    cases total with
    | finite q =>
      by_cases h : 0 < q
      · cases v <;> simp [pct, pygt, plt, pydiv, h, h.ne']
      · simp [pct, pygt, plt, h]
    | pinf => cases v <;> simp [pct, pygt, plt, pydiv]
    | ninf => simp [pct, pygt, plt]
    | nan => simp [pct, pygt, plt]

/-- Witness for claim C3 at concrete inputs: an empty candidate set and a
candidate set whose analyzeMedium score is 0 both yield no budget entry,
and the percentage of a phase over a zero total is still a value. -/
theorem budget_row_skip_witness :
    budget_row [] "Small" = none ∧
    budget_row [("analyzeMedium", ⟨.finite 0, .finite 1⟩)] "Medium" = none ∧
    (pct (.finite 5) (.finite 0)).isSome := by
  refine ⟨budget_row_skip_and_no_zero_division.1 [] "Small" rfl,
    budget_row_skip_and_no_zero_division.2.1 [("analyzeMedium", ⟨.finite 0, .finite 1⟩)]
      "Medium" ⟨.finite 0, .finite 1⟩ (by decide) (by decide),
    budget_row_skip_and_no_zero_division.2.2 (.finite 5) (.finite 0)⟩

/-- Lookup after a Python dict assignment: the assigned key reads back the
new value and every other key is unchanged. -/
theorem dictFind_insert (d : MetricSet) (k k2 : String) (v : Measurement) :
    dictFind? (dictInsert d k v) k2 = if k == k2 then some v else dictFind? d k2 := by
  induction d with
  | nil => simp [dictInsert, dictFind?]
  | cons p rest ih =>
    by_cases hpk : p.1 == k
    · have hp1 : p.1 = k := by simpa using hpk
      by_cases hk2 : k == k2
      · simp [dictInsert, dictFind?, hpk, hk2]
      · have hk2e : k ≠ k2 := by simpa using hk2
        have hp2 : (p.1 == k2) = false := by simp [hp1, hk2e]
        simp [dictInsert, dictFind?, hpk, hk2, hp2]
    · by_cases hp2 : p.1 == k2
      · have hp2e : p.1 = k2 := by simpa using hp2
        have hkk2 : (k == k2) = false := by
          have hne : p.1 ≠ k := by simpa using hpk
          have : k ≠ k2 := fun h => hne (h ▸ hp2e)
          simp [this]
        simp [dictInsert, dictFind?, hpk, hp2, hkk2]
      · simp [dictInsert, dictFind?, hpk, hp2, ih]

/-- Lookup in the parse_results fold from any accumulator: the result is the
measurement of the last record whose identifier ends in the key, falling
back to the accumulator. -/
theorem dictFind_parse_fold (es : List BenchEntry) (d : MetricSet) (k : String) :
    dictFind? (es.foldl insertEntry d) k =
      match lastMatch k es with
      | some e => some ⟨e.primaryMetric.score, e.primaryMetric.scoreError⟩
      | none => dictFind? d k := by
  induction es generalizing d with
  | nil => rfl
  | cons e rest ih =>
    simp only [List.foldl_cons, lastMatch]
    rw [ih]
    rcases h : lastMatch k rest with _ | r
    · simp only [h]
      unfold insertEntry
      rw [dictFind_insert]
      by_cases hk : lastSeg e.benchmark == k
      · simp [hk]
      · simp [hk]
    · simp [h]

/-- Claim C9 (confirmed): parse_results keys the dict by the last
dot-separated segment, so looking any name up returns exactly the score and
error of the last record of the input whose identifier ends in that
segment: an earlier record with the same last segment is silently
overwritten, the result never has more entries than the input, and two
records sharing a last segment collapse to a single entry holding the later
measurement. -/
theorem parse_results_last_wins :
    (∀ (es : List BenchEntry) (k : String),
      dictFind? (parse_results es) k =
        match lastMatch k es with
        | some e => some ⟨e.primaryMetric.score, e.primaryMetric.scoreError⟩
        | none => none) ∧
    (∀ es : List BenchEntry, (parse_results es).length ≤ es.length) ∧
    parse_results [⟨"com.hexaglue.Bench.parseSmall", ⟨.finite 10, .finite 1⟩⟩,
        ⟨"org.other.Bench.parseSmall", ⟨.finite 7, .finite 2⟩⟩] =
      [("parseSmall", ⟨.finite 7, .finite 2⟩)] := by
  refine ⟨?_, ?_, by decide⟩
  · intro es k
    rw [show parse_results es = es.foldl insertEntry [] from rfl, dictFind_parse_fold]
    rcases lastMatch k es with _ | e <;> rfl
  · have hlen : ∀ (d : MetricSet) (k : String) (v : Measurement),
        (dictInsert d k v).length ≤ d.length + 1 := by
      intro d k v
      induction d with
      | nil => simp [dictInsert]
      | cons p rest ih => by_cases h : p.1 == k <;> simp [dictInsert, h] <;> omega
    have hfold : ∀ (es : List BenchEntry) (d : MetricSet),
        (es.foldl insertEntry d).length ≤ d.length + es.length := by
      intro es
      induction es with
      | nil => intro d; simp
      | cons e rest ih =>
        intro d
        calc (List.foldl insertEntry (insertEntry d e) rest).length
            ≤ (insertEntry d e).length + rest.length := ih _
          _ ≤ d.length + 1 + rest.length := by
              have := hlen d (lastSeg e.benchmark)
                ⟨e.primaryMetric.score, e.primaryMetric.scoreError⟩
              unfold insertEntry
              omega
          _ = d.length + (e :: rest).length := by simp; omega
    intro es
    simpa using hfold es []

/-- Claim C8 (confirmed): the plain-text comparison loop of parse-results.py
aborts with an uncaught ZeroDivisionError exactly when some benchmark of the
baseline set that is also present in the candidate set has a baseline score
of exactly 0, while get_diff of generate-report.py returns positive infinity
for every candidate against that same zero baseline: the two reporting
paths diverge on zero baselines. -/
theorem plain_text_zero_division_iff :
    (∀ v2_results v3_results : MetricSet,
      plain_text_diffs v2_results v3_results = none ↔
        ∃ p, p ∈ v2_results ∧ (dictFind? v3_results p.1).isSome ∧
          p.2.score = .finite 0) ∧
    (∀ c : PyFloat, get_diff (.finite 0) c = .pinf) := by
  refine ⟨?_, fun _ => rfl⟩
  intro v2_results v3_results
  induction v2_results with
  | nil => simp [plain_text_diffs]
  | cons p rest ih =>
    rcases h3 : dictFind? v3_results p.1 with _ | m3
    · simp only [plain_text_diffs, h3]
      rw [ih]
      constructor
      · rintro ⟨q, hq, hs, hz⟩
        exact ⟨q, List.mem_cons_of_mem _ hq, hs, hz⟩
      · rintro ⟨q, hq, hs, hz⟩
        rcases List.mem_cons.mp hq with rfl | hq
        · rw [h3] at hs
          simp at hs
        · exact ⟨q, hq, hs, hz⟩
    · by_cases hz : p.2.score = .finite 0
      · have hdiv : pydiv (pysub m3.score p.2.score) p.2.score = none :=
          (pydiv_eq_none _ _).mpr hz
        simp only [plain_text_diffs, h3, hdiv]
        constructor
        · intro _
          exact ⟨p, List.mem_cons_self _ _, by rw [h3]; rfl, hz⟩
        · intro _
          trivial
      · have hdiv : pydiv (pysub m3.score p.2.score) p.2.score ≠ none :=
          fun hn => hz ((pydiv_eq_none _ _).mp hn)
        rcases ho : pydiv (pysub m3.score p.2.score) p.2.score with _ | r
        · exact absurd ho hdiv
        · simp only [plain_text_diffs, h3, ho, Option.map_eq_none']
          rw [ih]
          constructor
          · rintro ⟨q, hq, hs, hqz⟩
            exact ⟨q, List.mem_cons_of_mem _ hq, hs, hqz⟩
          · rintro ⟨q, hq, hs, hqz⟩
            rcases List.mem_cons.mp hq with rfl | hq
            · exact absurd hqz hz
            · exact ⟨q, hq, hs, hqz⟩
